import Mathlib

/-!
Shallow embedding of `src/backend/models.py`: the SQLAlchemy schema of a
dating-style application, materialised on a PostgreSQL database by
`Base.metadata.create_all(bind=engine)` at module load.

Modelling choices, all taken from the source file plus standard SQL /
PostgreSQL semantics of the declared constraints:

* Each declared table becomes a row structure.  A column declared without
  `nullable=False` (SQLAlchemy default: nullable) is `Option`-typed; a
  `nullable=False` column, and each primary key (implicitly NOT NULL), is
  plain-typed in the stored row.
* An insert is given a "pending" row in which every column is `Option`-typed
  (the value the ORM would send, `none` meaning SQL NULL / omitted).  The
  insert validates, in order: NOT NULL columns, primary-key uniqueness,
  declared `UniqueConstraint` / `unique=True` columns, then foreign keys.
  Unique constraints use SQL comparison semantics: a row whose constrained
  column is NULL never conflicts with any row.  Foreign keys are checked
  only when enforcement is active (`DB.fkEnforced`); a NULL referencing
  column always satisfies its foreign key.
* `users.id` is `primary_key=True, autoincrement=False`: no generated value
  exists, so an omitted id is sent as NULL and violates NOT NULL.  Every
  other table's integer primary key autoincrements; an omitted id receives
  a fresh generated value (modelled as one more than the maximum id).
* `ForeignKey("users.id")` carries no `ondelete` clause, hence the
  PostgreSQL default NO ACTION: deleting a user row that is still
  referenced fails with a foreign-key violation when enforcement is active.
* `Base.metadata.create_all` issues CREATE TABLE IF NOT EXISTS for the six
  declared tables and touches nothing else.
-/

/-- Constraint-violation errors surfaced by the database driver. -/
inductive DBError where
  | notNullViolation
  | uniqueViolation
  | foreignKeyViolation
deriving DecidableEq, Repr

/-- A stored row of the `users` table.  `email`, `name`, `password` are
`nullable=False`; `id` is the (caller-assigned) primary key; the remaining
columns are nullable. -/
structure UserRow where
  id : Int
  email : String
  name : String
  password : String
  gender : Option String
  birth_date : Option Int
  preferences : Option String
  location : Option String
  age : Option Int
deriving DecidableEq, Repr

/-- A pending `users` insert: every column as supplied by the caller,
`none` meaning NULL/omitted.  `users.id` has `autoincrement=False`, so an
omitted id stays NULL. -/
structure NewUser where
  id : Option Int
  email : Option String
  name : Option String
  password : Option String
  gender : Option String
  birth_date : Option Int
  preferences : Option String
  location : Option String
  age : Option Int
deriving DecidableEq, Repr

/-- A stored row of the `profiles` table.  `user_id` is `nullable=False`
(with `ForeignKey("users.id")`); `photo`/`description`/`interests` are
explicitly nullable.  The `photo` bytes are modelled as a list of byte
values. -/
structure ProfileRow where
  id : Int
  user_id : Int
  photo : Option (List Nat)
  description : Option String
  interests : Option String
deriving DecidableEq, Repr

/-- A pending `profiles` insert; `id = none` draws a fresh autoincremented
value. -/
structure NewProfile where
  id : Option Int
  user_id : Option Int
  photo : Option (List Nat)
  description : Option String
  interests : Option String
deriving DecidableEq, Repr

/-- A stored row of the `admins` table.  `user_id` is `nullable=False,
unique=True` with `ForeignKey("users.id")`; `is_blocked` has a client-side
`default=False`. -/
structure AdminRow where
  id : Int
  user_id : Int
  is_blocked : Option Bool
deriving DecidableEq, Repr

/-- A pending `admins` insert. -/
structure NewAdmin where
  id : Option Int
  user_id : Option Int
  is_blocked : Option Bool
deriving DecidableEq, Repr

/-- A stored row of the `likes` table: both `user_id` and `liked_user_id`
are nullable foreign keys to `users.id`, with no unique constraint. -/
structure LikeRow where
  id : Int
  user_id : Option Int
  liked_user_id : Option Int
deriving DecidableEq, Repr

/-- A pending `likes` insert. -/
structure NewLike where
  id : Option Int
  user_id : Option Int
  liked_user_id : Option Int
deriving DecidableEq, Repr

/-- A stored row of the `matches` table: both `user_id` and `liked_user_id`
are nullable foreign keys to `users.id`, and the table carries
`UniqueConstraint("user_id", "liked_user_id", name="unique_match")`. -/
structure MatchRow where
  id : Int
  user_id : Option Int
  liked_user_id : Option Int
deriving DecidableEq, Repr

/-- A pending `matches` insert. -/
structure NewMatch where
  id : Option Int
  user_id : Option Int
  liked_user_id : Option Int
deriving DecidableEq, Repr

/-- A stored row of the `messages` table: `sender_id` and `receiver_id`
are nullable foreign keys to `users.id`; `message` is a nullable string. -/
structure MessageRow where
  id : Int
  sender_id : Option Int
  receiver_id : Option Int
  message : Option String
deriving DecidableEq, Repr

/-- A pending `messages` insert. -/
structure NewMessage where
  id : Option Int
  sender_id : Option Int
  receiver_id : Option Int
  message : Option String
deriving DecidableEq, Repr

/-- A database state: the six tables declared in `models.py`, plus whether
the backend enforces foreign keys (PostgreSQL: yes; the spec leaves the
flag open, so it is a parameter of the state). -/
structure DB where
  fkEnforced : Bool
  users : List UserRow
  profiles : List ProfileRow
  admins : List AdminRow
  likes : List LikeRow
  «matches» : List MatchRow
  messages : List MessageRow
deriving DecidableEq, Repr

/-- The next autoincrement value for a table whose ids are `ids`: strictly
greater than every existing id. -/
def freshId (ids : List Int) : Int :=
  ids.foldr max 0 + 1

/-- Whether a `users` row with this id exists. -/
def userExists (db : DB) (u : Int) : Bool :=
  db.users.any (fun r => r.id = u)

/-- SQL semantics of a single-column foreign key to `users.id`: satisfied
when enforcement is off, when the referencing value is NULL, or when the
referenced user exists. -/
def fkOk (db : DB) (ref : Option Int) : Bool :=
  !db.fkEnforced ||
    match ref with
    | none => true
    | some u => userExists db u

/-- SQL equality of two nullable column values as used by UNIQUE
constraints: NULL compares equal to nothing, including NULL. -/
def sqlEq (a b : Option Int) : Bool :=
  match a, b with
  | some x, some y => x = y
  | _, _ => false

/-- Whether an existing `matches` row conflicts, under
`UniqueConstraint("user_id", "liked_user_id")`, with the pair `(u, l)`. -/
def matchConflict (r : MatchRow) (u l : Option Int) : Bool :=
  sqlEq r.user_id u && sqlEq r.liked_user_id l

/-- INSERT INTO users.  `id` is the primary key with `autoincrement=False`:
an omitted id is sent as NULL and, like an omitted `email`/`name`/
`password`, violates NOT NULL; an explicit id is stored exactly and must
not collide with an existing primary key. -/
def insertUser (db : DB) (p : NewUser) : Except DBError DB :=
  match p.id, p.email, p.name, p.password with
  | some i, some e, some n, some pw =>
      if db.users.any (fun r => r.id = i) then
        .error .uniqueViolation
      else
        .ok { db with
                users := db.users ++
                  [⟨i, e, n, pw, p.gender, p.birth_date, p.preferences,
                    p.location, p.age⟩] }
  | _, _, _, _ => .error .notNullViolation

/-- INSERT INTO profiles.  `user_id` is NOT NULL; the primary key
autoincrements when omitted; `user_id` is a foreign key to `users.id`.
No unique constraint beyond the primary key is declared. -/
def insertProfile (db : DB) (p : NewProfile) : Except DBError DB :=
  match p.user_id with
  | none => .error .notNullViolation
  | some u =>
      let i := p.id.getD (freshId (db.profiles.map (fun r => r.id)))
      if db.profiles.any (fun r => r.id = i) then
        .error .uniqueViolation
      else if !fkOk db (some u) then
        .error .foreignKeyViolation
      else
        .ok { db with
                profiles := db.profiles ++
                  [⟨i, u, p.photo, p.description, p.interests⟩] }

/-- INSERT INTO admins.  `user_id` is NOT NULL and `unique=True`; the
primary key autoincrements when omitted; `is_blocked` receives its client
default `False` when omitted; `user_id` is a foreign key to `users.id`. -/
def insertAdmin (db : DB) (p : NewAdmin) : Except DBError DB :=
  match p.user_id with
  | none => .error .notNullViolation
  | some u =>
      let i := p.id.getD (freshId (db.admins.map (fun r => r.id)))
      if db.admins.any (fun r => r.id = i) then
        .error .uniqueViolation
      else if db.admins.any (fun r => r.user_id = u) then
        .error .uniqueViolation
      else if !fkOk db (some u) then
        .error .foreignKeyViolation
      else
        .ok { db with
                admins := db.admins ++
                  [⟨i, u, some (p.is_blocked.getD false)⟩] }

/-- INSERT INTO likes.  Both user columns are nullable foreign keys; the
primary key autoincrements when omitted; no unique constraint is declared
beyond the primary key. -/
def insertLike (db : DB) (p : NewLike) : Except DBError DB :=
  let i := p.id.getD (freshId (db.likes.map (fun r => r.id)))
  if db.likes.any (fun r => r.id = i) then
    .error .uniqueViolation
  else if !(fkOk db p.user_id && fkOk db p.liked_user_id) then
    .error .foreignKeyViolation
  else
    .ok { db with likes := db.likes ++ [⟨i, p.user_id, p.liked_user_id⟩] }

/-- INSERT INTO matches.  Like `likes`, plus the declared
`UniqueConstraint("user_id", "liked_user_id")`, checked with SQL NULL
semantics before foreign keys (PostgreSQL checks unique indexes at row
insertion, foreign keys afterwards). -/
def insertMatch (db : DB) (p : NewMatch) : Except DBError DB :=
  let i := p.id.getD (freshId (db.«matches».map (fun r => r.id)))
  if db.«matches».any (fun r => r.id = i) then
    .error .uniqueViolation
  else if db.«matches».any (fun r => matchConflict r p.user_id p.liked_user_id) then
    .error .uniqueViolation
  else if !(fkOk db p.user_id && fkOk db p.liked_user_id) then
    .error .foreignKeyViolation
  else
    .ok { db with «matches» := db.«matches» ++ [⟨i, p.user_id, p.liked_user_id⟩] }

/-- INSERT INTO messages.  `sender_id` and `receiver_id` are nullable
foreign keys; `message` is nullable; the primary key autoincrements when
omitted. -/
def insertMessage (db : DB) (p : NewMessage) : Except DBError DB :=
  let i := p.id.getD (freshId (db.messages.map (fun r => r.id)))
  if db.messages.any (fun r => r.id = i) then
    .error .uniqueViolation
  else if !(fkOk db p.sender_id && fkOk db p.receiver_id) then
    .error .foreignKeyViolation
  else
    .ok { db with
            messages := db.messages ++
              [⟨i, p.sender_id, p.receiver_id, p.message⟩] }

/-- Whether any dependent-table row references `users.id = u`. -/
def referencesUser (db : DB) (u : Int) : Bool :=
  db.profiles.any (fun r => r.user_id = u) ||
  db.admins.any (fun r => r.user_id = u) ||
  db.likes.any (fun r => r.user_id = some u || r.liked_user_id = some u) ||
  db.«matches».any (fun r => r.user_id = some u || r.liked_user_id = some u) ||
  db.messages.any (fun r => r.sender_id = some u || r.receiver_id = some u)

/-- DELETE FROM users WHERE id = u.  Every `ForeignKey("users.id")` in the
schema is declared without an `ondelete` clause, i.e. NO ACTION: when
enforcement is active and a still-referenced user row would be deleted,
the statement fails; otherwise the user rows with this id are removed and
no dependent table is touched (no cascade). -/
def deleteUser (db : DB) (u : Int) : Except DBError DB :=
  if db.fkEnforced && userExists db u && referencesUser db u then
    .error .foreignKeyViolation
  else
    .ok { db with users := db.users.filter (fun r => r.id ≠ u) }

/-- The six table names declared on `Base.metadata`. -/
def declaredTables : List String :=
  ["users", "profiles", "admins", "likes", "matches", "messages"]

/-- A database server state: which tables exist, plus their contents. -/
structure PgState where
  tables : List String
  db : DB
deriving DecidableEq, Repr

/-- `Base.metadata.create_all(bind=engine)` at module load: create each
declared table that does not yet exist (`checkfirst` behaviour), touching
neither existing tables nor any rows. -/
def createAll (s : PgState) : PgState :=
  { s with
      tables := s.tables ++
        declaredTables.filter (fun t => !s.tables.contains t) }

/-! ### Helper lemmas -/

theorem le_foldr_max (l : List Int) (x : Int) (hx : x ∈ l) :
    x ≤ l.foldr max 0 := by
  induction l with
  | nil => cases hx
  | cons a t ih =>
      rcases List.mem_cons.mp hx with h | h
      · subst h; exact le_max_left _ _
      · exact le_trans (ih h) (le_max_right _ _)

theorem any_fresh_eq_false {α : Type} (rows : List α) (f : α → Int) :
    (rows.any fun r => f r = freshId (rows.map f)) = false := by
  rw [List.any_eq_false]
  intro r hr
  simp only [decide_eq_true_eq]
  intro h
  have hle := le_foldr_max (rows.map f) (f r) (List.mem_map_of_mem f hr)
  rw [h] at hle
  simp only [freshId] at hle
  omega

theorem fkOk_none (db : DB) : fkOk db none = true := by
  simp [fkOk]

theorem insertUser_ok {db db' : DB} {p : NewUser} (h : insertUser db p = .ok db') :
    db'.profiles = db.profiles ∧ db'.admins = db.admins ∧ db'.likes = db.likes ∧
    db'.«matches» = db.«matches» ∧ db'.messages = db.messages := by
  unfold insertUser at h
  split at h
  · split at h
    · cases h
    · cases h; exact ⟨rfl, rfl, rfl, rfl, rfl⟩
  · cases h

theorem insertProfile_ok {db db' : DB} {p : NewProfile}
    (h : insertProfile db p = .ok db') :
    db'.users = db.users ∧ db'.admins = db.admins ∧ db'.likes = db.likes ∧
    db'.«matches» = db.«matches» ∧ db'.messages = db.messages := by
  unfold insertProfile at h
  split at h
  · cases h
  · dsimp only at h
    split at h
    · cases h
    · split at h
      · cases h
      · cases h; exact ⟨rfl, rfl, rfl, rfl, rfl⟩

theorem insertAdmin_ok {db db' : DB} {p : NewAdmin}
    (h : insertAdmin db p = .ok db') :
    db'.users = db.users ∧ db'.profiles = db.profiles ∧ db'.likes = db.likes ∧
    db'.«matches» = db.«matches» ∧ db'.messages = db.messages := by
  unfold insertAdmin at h
  split at h
  · cases h
  · dsimp only at h
    split at h
    · cases h
    · split at h
      · cases h
      · split at h
        · cases h
        · cases h; exact ⟨rfl, rfl, rfl, rfl, rfl⟩

theorem insertLike_ok {db db' : DB} {p : NewLike} (h : insertLike db p = .ok db') :
    db' = { db with likes := db.likes ++
      [⟨p.id.getD (freshId (db.likes.map fun r => r.id)),
        p.user_id, p.liked_user_id⟩] } := by
  unfold insertLike at h
  dsimp only at h
  split at h
  · cases h
  · split at h
    · cases h
    · cases h; rfl

theorem insertMatch_ok {db db' : DB} {p : NewMatch} (h : insertMatch db p = .ok db') :
    db' = { db with «matches» := db.«matches» ++
      [⟨p.id.getD (freshId (db.«matches».map fun r => r.id)),
        p.user_id, p.liked_user_id⟩] } := by
  unfold insertMatch at h
  dsimp only at h
  split at h
  · cases h
  · split at h
    · cases h
    · split at h
      · cases h
      · cases h; rfl

theorem insertMatch_ok_noConflict {db db' : DB} {p : NewMatch}
    (h : insertMatch db p = .ok db') :
    (db.«matches».any fun r => matchConflict r p.user_id p.liked_user_id) = false := by
  unfold insertMatch at h
  dsimp only at h
  split at h
  · cases h
  · split at h
    · cases h
    · split at h
      · cases h
      · rename_i h2 _
        exact Bool.eq_false_iff.mpr h2

theorem insertMessage_ok {db db' : DB} {p : NewMessage}
    (h : insertMessage db p = .ok db') :
    db' = { db with messages := db.messages ++
      [⟨p.id.getD (freshId (db.messages.map fun r => r.id)),
        p.sender_id, p.receiver_id, p.message⟩] } := by
  unfold insertMessage at h
  dsimp only at h
  split at h
  · cases h
  · split at h
    · cases h
    · cases h; rfl

/-! ### C2 -/

/-- A state with two users (ids 1 and 2), foreign keys enforced, and all
other tables empty. -/
def dbC2 : DB :=
  ⟨true,
   [⟨1, "a@example.com", "Ann", "pw1", none, none, none, none, none⟩,
    ⟨2, "b@example.com", "Ben", "pw2", none, none, none, none, none⟩],
   [], [], [], [], []⟩

/-- C2: the `matches` uniqueness constraint is directional — from a state
with users 1 and 2, inserting the match (1, 2) and then the mirrored match
(2, 1) both succeed, reaching a state whose `matches` table holds both
ordered pairs at once. -/
theorem C2_mirrored_matches_reachable :
    (insertMatch dbC2 ⟨none, some 1, some 2⟩).bind
        (fun d => insertMatch d ⟨none, some 2, some 1⟩) =
      .ok { dbC2 with «matches» := [⟨1, some 1, some 2⟩, ⟨2, some 2, some 1⟩] } := by
  rfl

/-! ### C10 -/

/-- C10: in `likes`, `matches` and `messages` the user-referencing columns
are nullable, so inserting a row with NULL in all of them succeeds in every
database state (a NULL column also satisfies its foreign key and, for
`matches`, never triggers the unique constraint); by contrast
`profiles.user_id` and `admins.user_id` are `nullable=False`, so the
corresponding insert fails with a NOT NULL violation. -/
theorem C10_nullable_reference_columns (db : DB) :
    insertLike db ⟨none, none, none⟩ =
      .ok { db with likes := db.likes ++
        [⟨freshId (db.likes.map fun r => r.id), none, none⟩] } ∧
    insertMatch db ⟨none, none, none⟩ =
      .ok { db with «matches» := db.«matches» ++
        [⟨freshId (db.«matches».map fun r => r.id), none, none⟩] } ∧
    insertMessage db ⟨none, none, none, none⟩ =
      .ok { db with messages := db.messages ++
        [⟨freshId (db.messages.map fun r => r.id), none, none, none⟩] } ∧
    insertProfile db ⟨none, none, none, none, none⟩ = .error .notNullViolation ∧
    insertAdmin db ⟨none, none, none⟩ = .error .notNullViolation := by
  refine ⟨?_, ?_, ?_, rfl, rfl⟩
  · have h1 := any_fresh_eq_false db.likes (fun r => r.id)
    unfold insertLike
    dsimp only [Option.getD_none]
    rw [h1]
    simp [fkOk]
  · have h1 := any_fresh_eq_false db.«matches» (fun r => r.id)
    unfold insertMatch
    dsimp only [Option.getD_none]
    rw [h1]
    simp [fkOk, matchConflict, sqlEq]
  · have h1 := any_fresh_eq_false db.messages (fun r => r.id)
    unfold insertMessage
    dsimp only [Option.getD_none]
    rw [h1]
    simp [fkOk]

/-! ### C1 -/

/-- A state whose `matches` table holds one row with NULL in both
constrained columns. -/
def dbC1 : DB := ⟨true, [], [], [], [], [⟨1, none, none⟩], []⟩

/-- C1 counterexample: the unique constraint on `matches` uses SQL
comparison, under which NULL equals nothing; from a state holding a row
with the (user_id, liked_user_id) pair (NULL, NULL), inserting a second
row with the identical pair succeeds rather than failing, leaving two
`matches` rows that share the same ordered pair. -/
theorem C1_counterexample :
    (dbC1.«matches».map fun r => (r.user_id, r.liked_user_id)) = [(none, none)] ∧
    insertMatch dbC1 ⟨none, none, none⟩ =
      .ok { dbC1 with «matches» := [⟨1, none, none⟩, ⟨2, none, none⟩] } ∧
    (({ dbC1 with «matches» := [⟨1, none, none⟩, ⟨2, none, none⟩] } : DB).«matches».map
        fun r => (r.user_id, r.liked_user_id)) = [(none, none), (none, none)] :=
  ⟨rfl, rfl, rfl⟩

/-- No two distinct `matches` rows whose constrained columns are all
non-NULL share the same ordered (user_id, liked_user_id) pair. -/
def matchesPairwiseUnique (db : DB) : Prop :=
  db.«matches».Pairwise fun a b => matchConflict a b.user_id b.liked_user_id = false

/-- C1 (amended): inserting a `matches` row whose user_id and
liked_user_id are both non-NULL and equal the pair of an existing row
fails with a unique-constraint violation; the invariant that no two rows
with fully non-NULL pairs share the same ordered pair is preserved by the
`matches` insert, and every other insert leaves the `matches` table
unchanged. -/
theorem C1_matches_unique_nonnull (db db' : DB) (p : NewMatch) (u l : Int) :
    (p.user_id = some u → p.liked_user_id = some l →
      (∃ r ∈ db.«matches», r.user_id = some u ∧ r.liked_user_id = some l) →
      insertMatch db p = .error .uniqueViolation) ∧
    (matchesPairwiseUnique db → insertMatch db p = .ok db' →
      matchesPairwiseUnique db') ∧
    (∀ q : NewUser, insertUser db q = .ok db' → db'.«matches» = db.«matches») ∧
    (∀ q : NewProfile, insertProfile db q = .ok db' → db'.«matches» = db.«matches») ∧
    (∀ q : NewAdmin, insertAdmin db q = .ok db' → db'.«matches» = db.«matches») ∧
    (∀ q : NewLike, insertLike db q = .ok db' → db'.«matches» = db.«matches») ∧
    (∀ q : NewMessage, insertMessage db q = .ok db' → db'.«matches» = db.«matches») := by
  refine ⟨?_, ?_, ?_, ?_, ?_, ?_, ?_⟩
  · intro hu hl hex
    by_cases hpk :
        (db.«matches».any fun r =>
          r.id = p.id.getD (freshId (db.«matches».map fun r => r.id))) = true
    · unfold insertMatch
      dsimp only
      rw [if_pos hpk]
    · have hconf :
          (db.«matches».any fun r => matchConflict r p.user_id p.liked_user_id) = true := by
        rw [List.any_eq_true]
        obtain ⟨r, hr, hru, hrl⟩ := hex
        exact ⟨r, hr, by simp [matchConflict, sqlEq, hu, hl, hru, hrl]⟩
      unfold insertMatch
      dsimp only
      rw [if_neg hpk, if_pos hconf]
  · intro hinv hok
    have hnoc := insertMatch_ok_noConflict hok
    have hshape := insertMatch_ok hok
    subst hshape
    unfold matchesPairwiseUnique at hinv ⊢
    dsimp only
    rw [List.pairwise_append]
    refine ⟨hinv, List.pairwise_singleton _ _, ?_⟩
    intro a ha b hb
    rw [List.mem_singleton] at hb
    subst hb
    have hnc := List.any_eq_false.mp hnoc a ha
    simpa using hnc
  · intro q hok
    exact (insertUser_ok hok).2.2.2.1
  · intro q hok
    exact (insertProfile_ok hok).2.2.2.1
  · intro q hok
    exact (insertAdmin_ok hok).2.2.2.1
  · intro q hok
    rw [insertLike_ok hok]
  · intro q hok
    rw [insertMessage_ok hok]

/-- A state whose `matches` table holds the fully non-NULL pair (1, 2). -/
def dbC1w : DB := ⟨true, [], [], [], [], [⟨1, some 1, some 2⟩], []⟩

/-- Witness for C1: re-inserting the existing non-NULL pair (1, 2) is
rejected with a unique-constraint violation. -/
theorem C1_witness :
    insertMatch dbC1w ⟨none, some 1, some 2⟩ = .error .uniqueViolation :=
  (C1_matches_unique_nonnull dbC1w dbC1w ⟨none, some 1, some 2⟩ 1 2).1 rfl rfl
    ⟨⟨1, some 1, some 2⟩, by decide, rfl, rfl⟩

/-! ### C3 -/

/-- C3: `likes` carries no unique constraint, so inserting a row whose
(user_id, liked_user_id) pair equals an already-present row succeeds
whenever the row's foreign keys are satisfied, and the duplicate
accumulates: the resulting table holds at least two rows with that pair. -/
theorem C3_likes_accept_duplicates (db : DB) (p : NewLike)
    (hid : p.id = none)
    (hfk : (fkOk db p.user_id && fkOk db p.liked_user_id) = true)
    (hdup : ∃ r ∈ db.likes, r.user_id = p.user_id ∧ r.liked_user_id = p.liked_user_id) :
    insertLike db p =
      .ok { db with likes := db.likes ++
        [⟨freshId (db.likes.map fun r => r.id), p.user_id, p.liked_user_id⟩] } ∧
    2 ≤ ((db.likes ++
          [⟨freshId (db.likes.map fun r => r.id), p.user_id, p.liked_user_id⟩] :
            List LikeRow).countP
        fun r => r.user_id == p.user_id && r.liked_user_id == p.liked_user_id) := by
  constructor
  · have h1 := any_fresh_eq_false db.likes (fun r => r.id)
    unfold insertLike
    rw [hid]
    dsimp only [Option.getD_none]
    rw [h1, hfk]
    simp
  · rw [List.countP_append]
    have h1 :
        0 < db.likes.countP
          (fun r => r.user_id == p.user_id && r.liked_user_id == p.liked_user_id) := by
      rw [List.countP_pos_iff]
      obtain ⟨r, hr, hru, hrl⟩ := hdup
      exact ⟨r, hr, by simp [hru, hrl]⟩
    have h2 :
        ([⟨freshId (db.likes.map fun r => r.id), p.user_id, p.liked_user_id⟩] :
            List LikeRow).countP
          (fun r => r.user_id == p.user_id && r.liked_user_id == p.liked_user_id) = 1 := by
      simp [List.countP_cons]
    omega

/-- A state with one user (id 1) and one like row (1, 2), foreign keys not
enforced. -/
def dbC3w : DB := ⟨false, [], [], [], [⟨1, some 1, some 2⟩], [], []⟩

/-- Witness for C3: re-inserting the pair (1, 2) over an existing like
(1, 2) succeeds and the table then holds the pair twice. -/
theorem C3_witness :
    insertLike dbC3w ⟨none, some 1, some 2⟩ =
      .ok { dbC3w with likes := [⟨1, some 1, some 2⟩, ⟨2, some 1, some 2⟩] } ∧
    2 ≤ ([⟨1, some 1, some 2⟩, ⟨2, some 1, some 2⟩] : List LikeRow).countP
        fun r => r.user_id == some 1 && r.liked_user_id == some 2 :=
  C3_likes_accept_duplicates dbC3w ⟨none, some 1, some 2⟩ rfl (by decide)
    ⟨⟨1, some 1, some 2⟩, by decide, rfl, rfl⟩

/-! ### C4 -/

/-- A state with one user (id 1), foreign keys enforced, all dependent
tables empty. -/
def dbC4 : DB :=
  ⟨true, [⟨1, "a@example.com", "Ann", "pw1", none, none, none, none, none⟩],
   [], [], [], [], []⟩

/-- C4 evidence: `profiles.user_id` is declared `nullable=False` with a
foreign key but WITHOUT `unique=True` (unlike `admins.user_id`), so two
consecutive Profile inserts for the same user both succeed, leaving two
`profiles` rows referencing `users.id = 1` — the database does not enforce
the one-to-one relationship the model docstrings and the spec state. -/
theorem C4_duplicate_profile_accepted :
    (insertProfile dbC4 ⟨none, some 1, none, none, none⟩).bind
        (fun d => insertProfile d ⟨none, some 1, none, none, none⟩) =
      .ok { dbC4 with
              profiles := [⟨1, 1, none, none, none⟩, ⟨2, 1, none, none, none⟩] } ∧
    (({ dbC4 with
          profiles := [⟨1, 1, none, none, none⟩, ⟨2, 1, none, none, none⟩] } :
        DB).profiles.countP fun r => r.user_id == 1) = 2 :=
  ⟨rfl, rfl⟩

/-! ### C5 -/

/-- C5: `users.id` is `primary_key=True, autoincrement=False` — the
database never generates it.  Omitting the id on insert fails with a NOT
NULL violation; supplying an explicit id (with the NOT NULL columns
present and no primary-key collision) stores exactly that id. -/
theorem C5_user_id_caller_assigned (db : DB) (p : NewUser) (i : Int)
    (e n pw : String) :
    (p.id = none → insertUser db p = .error .notNullViolation) ∧
    (p.id = some i → p.email = some e → p.name = some n → p.password = some pw →
      (db.users.any fun r => r.id = i) = false →
      insertUser db p =
        .ok { db with users := db.users ++
          [⟨i, e, n, pw, p.gender, p.birth_date, p.preferences,
            p.location, p.age⟩] }) := by
  constructor
  · intro h
    unfold insertUser
    rw [h]
  · intro h1 h2 h3 h4 h5
    unfold insertUser
    rw [h1, h2, h3, h4]
    dsimp only
    rw [if_neg (by simp [h5])]

/-- The empty database, foreign keys enforced. -/
def dbC5w : DB := ⟨true, [], [], [], [], [], []⟩

/-- Witness for C5: on the empty database, omitting the id fails with a
NOT NULL violation, and an insert with explicit id 7 stores id 7. -/
theorem C5_witness :
    insertUser dbC5w
        ⟨none, some "a@example.com", some "Ann", some "pw",
         none, none, none, none, none⟩ = .error .notNullViolation ∧
    insertUser dbC5w
        ⟨some 7, some "a@example.com", some "Ann", some "pw",
         none, none, none, none, none⟩ =
      .ok { dbC5w with
              users := [⟨7, "a@example.com", "Ann", "pw",
                         none, none, none, none, none⟩] } :=
  ⟨(C5_user_id_caller_assigned dbC5w
      ⟨none, some "a@example.com", some "Ann", some "pw",
       none, none, none, none, none⟩ 7 "a@example.com" "Ann" "pw").1 rfl,
   (C5_user_id_caller_assigned dbC5w
      ⟨some 7, some "a@example.com", some "Ann", some "pw",
       none, none, none, none, none⟩ 7 "a@example.com" "Ann" "pw").2
     rfl rfl rfl rfl rfl⟩

/-! ### C6 -/

theorem insertAdmin_ok_shape {db db' : DB} {p : NewAdmin}
    (h : insertAdmin db p = .ok db') :
    ∃ u, p.user_id = some u ∧
      db' = { db with admins := db.admins ++
        [⟨p.id.getD (freshId (db.admins.map fun r => r.id)), u,
          some (p.is_blocked.getD false)⟩] } ∧
      (db.admins.any fun r => r.user_id = u) = false := by
  cases hp : p.user_id with
  | none =>
      unfold insertAdmin at h
      rw [hp] at h
      cases h
  | some u =>
      unfold insertAdmin at h
      rw [hp] at h
      dsimp only at h
      split at h
      · cases h
      · split at h
        · cases h
        · split at h
          · cases h
          · rename_i hpk hnu hfk
            cases h
            exact ⟨u, rfl, rfl, Bool.eq_false_iff.mpr hnu⟩

/-- Each `users.id` value is referenced by at most one `admins` row. -/
def adminUserIdsUnique (db : DB) : Prop :=
  db.admins.Pairwise fun a b => a.user_id ≠ b.user_id

/-- C6: `admins.user_id` is declared `unique=True`, so inserting a second
Admin row with the user_id of an existing row fails with a
unique-constraint violation, and the invariant that each `users.id` is
referenced by at most one `admins` row is preserved by the admin insert. -/
theorem C6_admin_user_id_unique (db db' : DB) (p : NewAdmin) (u : Int) :
    (p.id = none → p.user_id = some u →
      (∃ a ∈ db.admins, a.user_id = u) →
      insertAdmin db p = .error .uniqueViolation) ∧
    (adminUserIdsUnique db → insertAdmin db p = .ok db' →
      adminUserIdsUnique db') := by
  constructor
  · intro hid hu hex
    have h1 := any_fresh_eq_false db.admins (fun r => r.id)
    have h2 : (db.admins.any fun r => r.user_id = u) = true := by
      rw [List.any_eq_true]
      obtain ⟨a, ha, hau⟩ := hex
      exact ⟨a, ha, by simp [hau]⟩
    unfold insertAdmin
    rw [hu]
    dsimp only
    rw [hid]
    dsimp only [Option.getD_none]
    rw [h1, h2]
    simp
  · intro hinv hok
    obtain ⟨v, hv, hshape, hany⟩ := insertAdmin_ok_shape hok
    subst hshape
    unfold adminUserIdsUnique at hinv ⊢
    dsimp only
    rw [List.pairwise_append]
    refine ⟨hinv, List.pairwise_singleton _ _, ?_⟩
    intro a ha b hb
    rw [List.mem_singleton] at hb
    subst hb
    have hna := List.any_eq_false.mp hany a ha
    simpa using hna

/-- A state with one user (id 1) already referenced by an admin row. -/
def dbC6w : DB :=
  ⟨true, [⟨1, "a@example.com", "Ann", "pw1", none, none, none, none, none⟩],
   [], [⟨1, 1, some false⟩], [], [], []⟩

/-- Witness for C6: a second admin insert for user 1 is rejected with a
unique-constraint violation. -/
theorem C6_witness :
    insertAdmin dbC6w ⟨none, some 1, none⟩ = .error .uniqueViolation :=
  (C6_admin_user_id_unique dbC6w dbC6w ⟨none, some 1, none⟩ 1).1 rfl rfl
    ⟨⟨1, 1, some false⟩, by decide, rfl⟩

/-! ### C7 -/

theorem sqlEq_none_right (a : Option Int) : sqlEq a none = false := by
  cases a <;> rfl

theorem sqlEq_none_left (a : Option Int) : sqlEq none a = false := by
  cases a <;> rfl

/-- C7: with foreign-key enforcement active, inserting a Profile, Admin,
Like, Match, or Message row whose user-referencing column holds a value
absent from `users.id` fails with a foreign-key violation, in every
database state (for Admin, provided the earlier-checked `unique=True`
constraint on `user_id` is not already violated by the same row). -/
theorem C7_dangling_references_rejected (db : DB) (u : Int)
    (henf : db.fkEnforced = true)
    (hu : userExists db u = false) :
    insertProfile db ⟨none, some u, none, none, none⟩ =
      .error .foreignKeyViolation ∧
    ((db.admins.any fun r => r.user_id = u) = false →
      insertAdmin db ⟨none, some u, none⟩ = .error .foreignKeyViolation) ∧
    insertLike db ⟨none, some u, none⟩ = .error .foreignKeyViolation ∧
    insertLike db ⟨none, none, some u⟩ = .error .foreignKeyViolation ∧
    insertMatch db ⟨none, some u, none⟩ = .error .foreignKeyViolation ∧
    insertMatch db ⟨none, none, some u⟩ = .error .foreignKeyViolation ∧
    insertMessage db ⟨none, some u, none, none⟩ =
      .error .foreignKeyViolation ∧
    insertMessage db ⟨none, none, some u, none⟩ =
      .error .foreignKeyViolation := by
  refine ⟨?_, ?_, ?_, ?_, ?_, ?_, ?_, ?_⟩
  · have h1 := any_fresh_eq_false db.profiles (fun r => r.id)
    unfold insertProfile
    dsimp only [Option.getD_none]
    rw [h1]
    simp [fkOk, henf, hu]
  · intro hadm
    have h1 := any_fresh_eq_false db.admins (fun r => r.id)
    unfold insertAdmin
    dsimp only [Option.getD_none]
    rw [h1, hadm]
    simp [fkOk, henf, hu]
  · have h1 := any_fresh_eq_false db.likes (fun r => r.id)
    unfold insertLike
    dsimp only [Option.getD_none]
    rw [h1]
    simp [fkOk, henf, hu]
  · have h1 := any_fresh_eq_false db.likes (fun r => r.id)
    unfold insertLike
    dsimp only [Option.getD_none]
    rw [h1]
    simp [fkOk, henf, hu]
  · have h1 := any_fresh_eq_false db.«matches» (fun r => r.id)
    unfold insertMatch
    dsimp only [Option.getD_none]
    rw [h1]
    simp [fkOk, henf, hu, matchConflict, sqlEq_none_right]
  · have h1 := any_fresh_eq_false db.«matches» (fun r => r.id)
    unfold insertMatch
    dsimp only [Option.getD_none]
    rw [h1]
    simp [fkOk, henf, hu, matchConflict, sqlEq_none_right]
  · have h1 := any_fresh_eq_false db.messages (fun r => r.id)
    unfold insertMessage
    dsimp only [Option.getD_none]
    rw [h1]
    simp [fkOk, henf, hu]
  · have h1 := any_fresh_eq_false db.messages (fun r => r.id)
    unfold insertMessage
    dsimp only [Option.getD_none]
    rw [h1]
    simp [fkOk, henf, hu]

/-- A state with one user (id 1), foreign keys enforced; 99 is absent. -/
def dbC7w : DB :=
  ⟨true, [⟨1, "a@example.com", "Ann", "pw1", none, none, none, none, none⟩],
   [], [], [], [], []⟩

/-- Witness for C7: every dependent-table insert referencing the absent
user id 99 fails with a foreign-key violation. -/
theorem C7_witness :
    insertProfile dbC7w ⟨none, some 99, none, none, none⟩ =
      .error .foreignKeyViolation ∧
    insertAdmin dbC7w ⟨none, some 99, none⟩ = .error .foreignKeyViolation ∧
    insertLike dbC7w ⟨none, some 99, none⟩ = .error .foreignKeyViolation ∧
    insertLike dbC7w ⟨none, none, some 99⟩ = .error .foreignKeyViolation ∧
    insertMatch dbC7w ⟨none, some 99, none⟩ = .error .foreignKeyViolation ∧
    insertMatch dbC7w ⟨none, none, some 99⟩ = .error .foreignKeyViolation ∧
    insertMessage dbC7w ⟨none, some 99, none, none⟩ =
      .error .foreignKeyViolation ∧
    insertMessage dbC7w ⟨none, none, some 99, none⟩ =
      .error .foreignKeyViolation := by
  have h := C7_dangling_references_rejected dbC7w 99 rfl (by decide)
  exact ⟨h.1, h.2.1 (by decide), h.2.2.1, h.2.2.2.1, h.2.2.2.2.1,
    h.2.2.2.2.2.1, h.2.2.2.2.2.2.1, h.2.2.2.2.2.2.2⟩

/-! ### C8 -/

theorem createAll_mem (s : PgState) (t : String) (ht : t ∈ declaredTables) :
    t ∈ (createAll s).tables := by
  unfold createAll
  dsimp only
  rw [List.mem_append]
  by_cases hc : t ∈ s.tables
  · exact Or.inl hc
  · refine Or.inr (List.mem_filter.mpr ⟨ht, ?_⟩)
    simp [hc]

theorem createAll_idem (s : PgState) : createAll (createAll s) = createAll s := by
  have hnil :
      (declaredTables.filter fun t => !(createAll s).tables.contains t) = [] := by
    rw [List.filter_eq_nil_iff]
    intro t ht
    simp [createAll_mem s t ht]
  calc createAll (createAll s)
      = { createAll s with
            tables := (createAll s).tables ++
              declaredTables.filter fun t => !(createAll s).tables.contains t } := rfl
    _ = { createAll s with tables := (createAll s).tables ++ [] } := by rw [hnil]
    _ = createAll s := by rw [List.append_nil]

/-- C8: after `Base.metadata.create_all` every one of the six declared
tables exists; the operation is idempotent (running it twice equals
running it once), never touches the row data, and keeps every table that
already existed. -/
theorem C8_create_all_idempotent (s : PgState) :
    (∀ t ∈ declaredTables, t ∈ (createAll s).tables) ∧
    createAll (createAll s) = createAll s ∧
    (createAll s).db = s.db ∧
    (∀ t ∈ s.tables, t ∈ (createAll s).tables) :=
  ⟨fun t ht => createAll_mem s t ht, createAll_idem s, rfl,
   fun _t ht => by unfold createAll; exact List.mem_append_left _ ht⟩

/-- The empty database with foreign keys enforced. -/
def dbEmpty : DB := ⟨true, [], [], [], [], [], []⟩

/-- Witness for C8: on a server that already has a `users` table, all six
tables exist after `create_all`, a second run changes nothing, and the
row data is untouched. -/
theorem C8_witness :
    ("users" ∈ (createAll ⟨["users"], dbEmpty⟩).tables ∧
      "messages" ∈ (createAll ⟨["users"], dbEmpty⟩).tables) ∧
    createAll (createAll ⟨["users"], dbEmpty⟩) = createAll ⟨["users"], dbEmpty⟩ ∧
    (createAll ⟨["users"], dbEmpty⟩).db = dbEmpty := by
  have h := C8_create_all_idempotent ⟨["users"], dbEmpty⟩
  exact ⟨⟨h.2.2.2 "users" (by decide), h.1 "messages" (by decide)⟩, h.2.1, h.2.2.1⟩

/-! ### C9 -/

/-- A state with user 1 referenced by a profile row, foreign keys
enforced. -/
def dbC9 : DB :=
  ⟨true, [⟨1, "a@example.com", "Ann", "pw1", none, none, none, none, none⟩],
   [⟨1, 1, none, none, none⟩], [], [], [], []⟩

/-- C9 counterexample: the claim says deleting a User leaves the
referencing dependent rows in place, orphaned — but with foreign-key
enforcement active the schema's `ForeignKey("users.id")` columns (no
`ondelete` clause, hence NO ACTION) make the delete itself fail, so the
user row is never removed and no orphan arises. -/
theorem C9_counterexample :
    deleteUser dbC9 1 = .error .foreignKeyViolation ∧
    (dbC9.profiles.any fun r => r.user_id = 1) = true ∧
    dbC9.fkEnforced = true :=
  ⟨rfl, rfl, rfl⟩

/-- C9 (amended): no cascade-delete rules exist — a successful user delete
never modifies any dependent table (so their referencing rows survive,
orphaned); with enforcement off the delete of any user succeeds; with
enforcement active, deleting a still-referenced existing user fails with a
foreign-key violation (NO ACTION) instead of succeeding. -/
theorem C9_no_cascade_delete (db db' : DB) (u : Int) :
    (deleteUser db u = .ok db' →
      db'.profiles = db.profiles ∧ db'.admins = db.admins ∧
      db'.likes = db.likes ∧ db'.«matches» = db.«matches» ∧
      db'.messages = db.messages ∧
      db'.users = db.users.filter fun r => r.id ≠ u) ∧
    (db.fkEnforced = false →
      deleteUser db u =
        .ok { db with users := db.users.filter fun r => r.id ≠ u }) ∧
    (db.fkEnforced = true → userExists db u = true →
      referencesUser db u = true →
      deleteUser db u = .error .foreignKeyViolation) := by
  refine ⟨?_, ?_, ?_⟩
  · intro hok
    unfold deleteUser at hok
    split at hok
    · cases hok
    · cases hok
      exact ⟨rfl, rfl, rfl, rfl, rfl, rfl⟩
  · intro henf
    unfold deleteUser
    rw [henf]
    simp
  · intro henf hex href
    unfold deleteUser
    rw [if_pos (by rw [henf, hex, href]; rfl)]

/-- A state like `dbC9` but with foreign-key enforcement off. -/
def dbC9w : DB :=
  ⟨false, [⟨1, "a@example.com", "Ann", "pw1", none, none, none, none, none⟩],
   [⟨1, 1, none, none, none⟩], [], [], [], []⟩

/-- Witness for C9: with enforcement off, deleting user 1 succeeds, the
user row disappears and the referencing profile row survives, orphaned;
with enforcement on (`dbC9`) the same delete fails. -/
theorem C9_witness :
    deleteUser dbC9w 1 = .ok { dbC9w with users := [] } ∧
    ({ dbC9w with users := ([] : List UserRow) } : DB).profiles =
      [⟨1, 1, none, none, none⟩] ∧
    deleteUser dbC9 1 = .error .foreignKeyViolation := by
  refine ⟨?_, rfl, ?_⟩
  · exact (C9_no_cascade_delete dbC9w { dbC9w with users := [] } 1).2.1 rfl
  · exact (C9_no_cascade_delete dbC9 dbC9 1).2.2 rfl rfl rfl
